import Mathlib

/-!
Verification development for the kdb_pykx_mcp_server repository
(src/kdb_mcp_server.py). The Python module is shallowly embedded: its pure
string functions (identifier validation, the danger-pattern scanner, result
formatting) become Lean functions over `String` / `List Char`, and the tool
dispatcher `call_tool` becomes a total Lean function over an explicit model
of its runtime context (argument mapping, engine oracle, global config),
with Python exceptions modelled by `Except Exn`.

Modelling conventions, used throughout:
* A JSON argument value is `Val` (string or integer; other JSON shapes do
  not occur in the claims under study).  `arguments.get(k)` returning
  `None` is the `Option.none` case.
* Python's `re` character classes `\w` and `\s` and `str.upper/lower/strip`
  are modelled over ASCII, which covers every string the source ever
  builds itself.
* Exception messages raised by the Python runtime (`TypeError` from
  `re.match(p, None)`, `min` on mixed types, `AttributeError` from
  `.upper()` on a non-string) are modelled by fixed representative strings;
  only their classification, never their exact text, matters to any claim.
-/

/-- Characters matched by the regex class `[a-zA-Z_]` (`re` on ASCII). -/
def isIdentStart (c : Char) : Bool := c.isAlpha || c == '_'

/-- Characters matched by the regex class `[a-zA-Z0-9_]`. -/
def isIdentChar (c : Char) : Bool := c.isAlpha || c.isDigit || c == '_'

/-- The tail of the identifier regex match, `[a-zA-Z0-9_]*$`, after the
first character: CPython's `$` (without `re.MULTILINE`) matches at the end of
the string, or just before a newline that is the last character.  So the
remaining characters must all be identifier characters, except that a single
final newline is also accepted. -/
def identTail : List Char → Bool
  | [] => true
  | c :: rest => (c == '\n' && rest.isEmpty) || (isIdentChar c && identTail rest)

/-- `bool(re.match(r'^[a-zA-Z_][a-zA-Z0-9_]*$', s))` (kdb_mcp_server.py
lines 108-115): one leading letter-or-underscore, then `identTail`. -/
def pyMatchIdent (s : String) : Bool :=
  match s.data with
  | [] => false
  | c :: rest => isIdentStart c && identTail rest

/-- `validate_table_name` (kdb_mcp_server.py line 108). -/
def validate_table_name (name : String) : Bool := pyMatchIdent name

/-- `validate_column_name` (kdb_mcp_server.py line 113): same regex. -/
def validate_column_name (name : String) : Bool := pyMatchIdent name

/-- The spec-side identifier grammar `^[A-Za-z_][A-Za-z0-9_]*$` read as the
claim reads it: non-empty, a leading ASCII letter or underscore, and every
following character an ASCII letter, digit or underscore. -/
def specIdent (s : String) : Bool :=
  match s.data with
  | [] => false
  | c :: rest => isIdentStart c && rest.all isIdentChar

/-- Case-insensitive character comparison, as `re.IGNORECASE` compares the
ASCII letters appearing in the danger patterns. -/
def ciEq (a b : Char) : Bool := a.toLower == b.toLower

/-- Case-insensitive prefix test for a pattern's literal characters. -/
def startsWithCI : List Char → List Char → Bool
  | [], _ => true
  | _ :: _, [] => false
  | p :: ps, c :: cs => ciEq p c && startsWithCI ps cs

/-- The regex class `\w` (ASCII model). -/
def isWordChar (c : Char) : Bool := c.isAlpha || c.isDigit || c == '_'

/-- The regex class `\s`: `[ \t\n\r\f\v]`. -/
def isSpaceChar (c : Char) : Bool :=
  c == ' ' || c == '\t' || c == '\n' || c == '\r' || c == '\x0c' || c == '\x0b'

/-- `\b` before a word character: start of string, or a non-word character
just before the match position. -/
def boundaryBefore : Option Char → Bool
  | none => true
  | some c => !isWordChar c

/-- `\b` after a word character: end of string, or a non-word character at
the position following the match. -/
def boundaryAfter : List Char → Bool
  | [] => true
  | c :: _ => !isWordChar c

/-- Match-at-position for a pattern `\bWORD\b` (w entirely word characters). -/
def matchWordAt (w : List Char) (prev : Option Char) (cs : List Char) : Bool :=
  boundaryBefore prev && startsWithCI w cs && boundaryAfter (cs.drop w.length)

/-- Match-at-position for `\bdelete\s+from\b`.  Since `f` is not a space
character, the greedy `\s+` needs no backtracking: consume a maximal
non-empty run of spaces, then `from` and a trailing boundary. -/
def matchDeleteFromAt (prev : Option Char) (cs : List Char) : Bool :=
  boundaryBefore prev && startsWithCI "delete".data cs &&
    (match cs.drop 6 with
     | c :: rest =>
        isSpaceChar c &&
          (let r := (c :: rest).dropWhile isSpaceChar
           startsWithCI "from".data r && boundaryAfter (r.drop 4))
     | [] => false)

/-- Match-at-position for `\\\\` (two literal backslashes). -/
def matchBackslashesAt (_ : Option Char) (cs : List Char) : Bool :=
  match cs with
  | '\\' :: '\\' :: _ => true
  | _ => false

/-- Match-at-position for `\\l\s+/` (a literal backslash, `l`, spaces, `/`). -/
def matchLoadRootAt (_ : Option Char) (cs : List Char) : Bool :=
  match cs with
  | '\\' :: l :: rest =>
      ciEq l 'l' &&
        (match rest with
         | c :: rest' =>
            isSpaceChar c && (((c :: rest').dropWhile isSpaceChar).head? == some '/')
         | [] => false)
  | _ => false

/-- Match-at-position for `\bvalue\s*"`.  `"` is not a space character, so
the greedy `\s*` needs no backtracking. -/
def matchValueAt (prev : Option Char) (cs : List Char) : Bool :=
  boundaryBefore prev && startsWithCI "value".data cs &&
    (((cs.drop 5).dropWhile isSpaceChar).head? == some '\"')

/-- Match-at-position for the literal pattern `` `:/ ``. -/
def matchRootPathAt (_ : Option Char) (cs : List Char) : Bool :=
  startsWithCI "\x60:/".data cs

/-- `re.search` over a match-at-position function: try every position from
left to right, tracking the previous character for `\b`. -/
def searchFrom (m : Option Char → List Char → Bool) : Option Char → List Char → Bool
  | prev, [] => m prev []
  | prev, c :: cs => m prev (c :: cs) || searchFrom m (some c) cs

/-- `bool(pattern.search(s))` for one compiled danger pattern. -/
def reSearch (m : Option Char → List Char → Bool) (s : String) : Bool :=
  searchFrom m none s.data

/-- `DANGEROUS_PATTERNS` together with their compiled matchers
(kdb_mcp_server.py lines 42-55), in source order.  The second component is
the raw pattern string used in the reported reason. -/
def DANGEROUS_PATTERNS : List ((Option Char → List Char → Bool) × String) :=
  [ (matchWordAt "drop".data, "\\bdrop\\b"),
    (matchDeleteFromAt, "\\bdelete\\s+from\\b"),
    (matchBackslashesAt, "\\\\\\\\"),
    (matchLoadRootAt, "\\\\l\\s+/"),
    (matchWordAt "exit".data, "\\bexit\\b"),
    (matchValueAt, "\\bvalue\\s*\""),
    (matchWordAt "system".data, "\\bsystem\\b"),
    (matchWordAt "hclose".data, "\\bhclose\\b"),
    (matchWordAt "hdel".data, "\\bhdel\\b"),
    (matchRootPathAt, "\x60:/") ]

/-- The loop body of `is_dangerous_query`: first matching pattern wins. -/
def findDanger : List ((Option Char → List Char → Bool) × String) → String → Bool × String
  | [], _ => (false, "")
  | (m, p) :: rest, q =>
      if reSearch m q then (true, "Query contains dangerous pattern: " ++ p)
      else findDanger rest q

/-- `is_dangerous_query` (kdb_mcp_server.py lines 58-63). -/
def is_dangerous_query (query : String) : Bool × String :=
  findDanger DANGEROUS_PATTERNS query

/-- Python `s.split('\n')` on the character list: always at least one piece,
empty pieces kept. -/
def splitNl : List Char → List (List Char)
  | [] => [[]]
  | '\n' :: rest => [] :: splitNl rest
  | c :: rest =>
      match splitNl rest with
      | [] => [[c]]
      | l :: ls => (c :: l) :: ls

/-- Python `'\n'.join(ls)`. -/
def joinNl : List String → String
  | [] => ""
  | [s] => s
  | s :: rest => s ++ "\n" ++ joinNl rest

/-- Python slicing `s[:n]`. -/
def pyTake (s : String) (n : Nat) : String := ⟨s.data.take n⟩

/-- The per-line body of `format_result`'s loop: lines longer than
`max_width` are cut and given a trailing ellipsis. -/
def truncLine (max_width : Nat) (line : String) : String :=
  if line.length > max_width then pyTake line max_width ++ "..." else line

/-- The line-level content of `format_result` (kdb_mcp_server.py lines
94-102): truncate each of the first 100 lines, then append the
`... (N more rows)` marker when more than 100 lines came in. -/
def format_lines (lines : List String) (max_width : Nat) : List String :=
  (lines.take 100).map (truncLine max_width) ++
    (if lines.length > 100 then
      ["... (" ++ toString (lines.length - 100) ++ " more rows)"]
    else [])

/-- `format_result` (kdb_mcp_server.py lines 89-105) on the success path,
taking the textual form `str(result)` directly. -/
def format_result (result_str : String) (max_width : Nat := 120) : String :=
  joinNl (format_lines ((splitNl result_str.data).map String.mk) max_width)

/-- A JSON argument value as the dispatcher receives it: a string or an
integer.  An absent key (`arguments.get(k)` returning `None`) is modelled by
`Option.none` at the lookup site. -/
inductive Val where
  | vStr (s : String)
  | vInt (n : Int)
deriving DecidableEq, Repr

/-- The `arguments` mapping of a tool request. -/
def Args : Type := String → Option Val

/-- The Python exceptions the dispatcher can see, by handler class:
`kx.exceptions.QError` versus everything else (`TypeError`,
`AttributeError`, generic).  Messages are representative strings. -/
inductive Exn where
  | qerror (msg : String)
  | typeError (msg : String)
  | attrError (msg : String)
  | other (msg : String)
deriving DecidableEq, Repr

/-- An opaque engine result: `text` is `str(result)`; `len?` is
`len(result)` when the object has `__len__`; `pyInt?` is `result.py()`
when that yields an integer (the count queries). -/
structure EngineResult where
  text : String
  len? : Option Nat := none
  pyInt? : Option Int := none
deriving DecidableEq, Repr

/-- The engine oracle.  `tables` models `kx.q('tables[]').py()` (assumed to
answer without raising); `run` models `kx.q(query)`; `apply` models the
two-argument form `kx.q(fn_string, value)` used by `execute_query`. -/
structure Engine where
  tables : List String
  run : String → Except Exn EngineResult
  apply : String → EngineResult → Except Exn EngineResult

/-- The process-wide context read by `server_info` and `load_table`:
`kx.__version__`, `kx.licensed`, the `DATA_DIR` global, and the
filesystem probe `Path(...).exists()`. -/
structure Config where
  version : String := "2.x"
  licensed : Bool := true
  dataDir : Option String := none
  fsExists : String → Bool := fun _ => false

/-- Python `str(v)` for an argument value interpolated into an f-string. -/
def pyStr : Val → String
  | .vStr s => s
  | .vInt n => toString n

/-- Representative text of the `TypeError` raised by `re.match(pattern, x)`
when `x` is `None` or an integer. -/
def reMatchTypeErrorMsg : String := "expected string or bytes-like object"

/-- Exception-aware sequencing (a Python statement that may raise, then the
rest of the branch). -/
def bindE {α β : Type} (x : Except Exn α) (f : α → Except Exn β) : Except Exn β :=
  match x with
  | .error e => .error e
  | .ok a => f a

/-- The call `validate_table_name(arguments.get(k))` / the column variant:
on a string it returns the string and the regex verdict, on `None` or an
integer `re.match` raises `TypeError`. -/
def asStrArg : Option Val → Except Exn String
  | some (.vStr s) => .ok s
  | _ => .error (.typeError reMatchTypeErrorMsg)

/-- `min(arguments.get(k, dflt), cap)`: absent keys use the integer default;
a string argument makes `min` raise `TypeError`. -/
def pyMinInt (v : Option Val) (dflt cap : Int) : Except Exn Int :=
  match v with
  | some (.vInt n) => .ok (min n cap)
  | some (.vStr _) => .error (.typeError "unorderable str and int in min")
  | none => .ok (min dflt cap)

/-- `result.py()` used as an integer count (then formatted with a comma
separator): non-integer results make the formatting raise. -/
def asPyInt (r : EngineResult) : Except Exn Int :=
  match r.pyInt? with
  | some n => .ok n
  | none => .error (.typeError "unsupported format string for non-int")

/-- `table_exists` (kdb_mcp_server.py lines 118-121), called with whatever
value the argument lookup produced: `x in list_of_str` is `False` for an
integer, membership for a string. -/
def table_exists (eng : Engine) : Val → Bool
  | .vStr s => eng.tables.contains s
  | .vInt _ => false

/-- Python truthiness of an argument value (`if year:` etc.). -/
def truthy : Option Val → Bool
  | none => false
  | some (.vStr s) => !(s == "")
  | some (.vInt n) => !(n == 0)

/-- ASCII uppercasing of one character (`str.upper`, ASCII model). -/
def asciiUpper (c : Char) : Char :=
  match c with
  | 'a' => 'A' | 'b' => 'B' | 'c' => 'C' | 'd' => 'D' | 'e' => 'E' | 'f' => 'F'
  | 'g' => 'G' | 'h' => 'H' | 'i' => 'I' | 'j' => 'J' | 'k' => 'K' | 'l' => 'L'
  | 'm' => 'M' | 'n' => 'N' | 'o' => 'O' | 'p' => 'P' | 'q' => 'Q' | 'r' => 'R'
  | 's' => 'S' | 't' => 'T' | 'u' => 'U' | 'v' => 'V' | 'w' => 'W' | 'x' => 'X'
  | 'y' => 'Y' | 'z' => 'Z'
  | other => other

/-- ASCII lowercasing of one character (used to state what it means for two
strings to differ only in letter case). -/
def asciiLower (c : Char) : Char :=
  match c with
  | 'A' => 'a' | 'B' => 'b' | 'C' => 'c' | 'D' => 'd' | 'E' => 'e' | 'F' => 'f'
  | 'G' => 'g' | 'H' => 'h' | 'I' => 'i' | 'J' => 'j' | 'K' => 'k' | 'L' => 'l'
  | 'M' => 'm' | 'N' => 'n' | 'O' => 'o' | 'P' => 'p' | 'Q' => 'q' | 'R' => 'r'
  | 'S' => 's' | 'T' => 't' | 'U' => 'u' | 'V' => 'v' | 'W' => 'w' | 'X' => 'x'
  | 'Y' => 'y' | 'Z' => 'z'
  | other => other

/-- Python `s.upper()` (ASCII model). -/
def pyUpper (s : String) : String := ⟨s.data.map asciiUpper⟩

/-- `arguments.get("symbol", "").upper()`: absent key gives `""`, an
integer value makes `.upper()` raise `AttributeError`. -/
def pyUpperOf : Option Val → Except Exn String
  | none => .ok ""
  | some (.vStr s) => .ok (pyUpper s)
  | some (.vInt _) => .error (.attrError "int object has no attribute upper")

/-- Python `s.strip()` (ASCII whitespace model). -/
def pyStrip (s : String) : String :=
  ⟨((s.data.dropWhile isSpaceChar).reverse.dropWhile isSpaceChar).reverse⟩

/-- `arguments.get("query", "").strip()`. -/
def pyStripOf : Option Val → Except Exn String
  | none => .ok ""
  | some (.vStr s) => .ok (pyStrip s)
  | some (.vInt _) => .error (.attrError "int object has no attribute strip")

/-- `op_map.get(operator, ">")` over the fixed enumeration. -/
def opOf : Val → String
  | .vStr "gt" => ">"
  | .vStr "lt" => "<"
  | .vStr "gte" => ">="
  | .vStr "lte" => "<="
  | _ => ">"

/-- Helper for Python's `f"{n:,}"`: walk the reversed digit list inserting a
comma before every fourth digit from the right. -/
def commaRev : List Char → Nat → List Char
  | [], _ => []
  | c :: cs, k => if k == 3 then ',' :: c :: commaRev cs 1 else c :: commaRev cs (k + 1)

/-- Python `f"{n:,}"`: decimal with thousands separators. -/
def commaFmt (n : Int) : String :=
  (if n < 0 then "-" else "") ++
    String.mk ((commaRev (toString n.natAbs).data.reverse 0).reverse)

/-- `PurePath(p).name` (the last non-empty path component; Path string
normalisation beyond that is not modelled — no claim exercises it). -/
def pathName (p : String) : String :=
  ((((p.splitOn "/").filter (fun seg => !(seg == "")))).getLast?).getD ""

/-- `Path(p) / ".d"` rendered back to a string. -/
def joinDotD (p : String) : String :=
  (if p.endsWith "/" then p else p ++ "/") ++ ".d"

/-- `Bool` as Python prints it. -/
def pyBoolStr (b : Bool) : String := if b then "True" else "False"

/-- `DATA_DIR or 'Not set'`. -/
def dataDirStr : Option String → String
  | none => "Not set"
  | some s => if s == "" then "Not set" else s

/-- The `list_tables` branch (kdb_mcp_server.py lines 482-488). -/
def tool_list_tables (eng : Engine) : Except Exn (List String) :=
  let tables := eng.tables
  if tables.isEmpty then .ok ["No tables found in the current session."]
  else
    .ok ["Available tables (" ++ toString tables.length ++ "):\n" ++
      joinNl (tables.map (fun t => "  - " ++ t))]

/-- The `table_schema` branch (lines 490-497). -/
def tool_table_schema (eng : Engine) (args : Args) : Except Exn (List String) :=
  bindE (asStrArg (args "table_name")) fun t =>
  if !validate_table_name t then .ok ["Error: Invalid table name format"]
  else if !(table_exists eng (.vStr t)) then .ok ["Error: Table '" ++ t ++ "' not found"]
  else bindE (eng.run ("meta " ++ t)) fun r =>
  .ok ["Schema for '" ++ t ++ "':\n" ++ format_result r.text]

/-- The `table_count` branch (lines 499-506). -/
def tool_table_count (eng : Engine) (args : Args) : Except Exn (List String) :=
  bindE (asStrArg (args "table_name")) fun t =>
  if !validate_table_name t then .ok ["Error: Invalid table name format"]
  else if !(table_exists eng (.vStr t)) then .ok ["Error: Table '" ++ t ++ "' not found"]
  else bindE (eng.run ("count " ++ t)) fun r =>
  bindE (asPyInt r) fun c =>
  .ok ["Table '" ++ t ++ "' has " ++ commaFmt c ++ " rows"]

/-- The `table_sample` branch (lines 508-516): `num_rows` is clamped by
`min(..., 100)` before validation and composition. -/
def tool_table_sample (eng : Engine) (args : Args) : Except Exn (List String) :=
  bindE (pyMinInt (args "num_rows") 10 100) fun num_rows =>
  bindE (asStrArg (args "table_name")) fun t =>
  if !validate_table_name t then .ok ["Error: Invalid table name format"]
  else if !(table_exists eng (.vStr t)) then .ok ["Error: Table '" ++ t ++ "' not found"]
  else bindE (eng.run (toString num_rows ++ "#" ++ t)) fun r =>
  .ok ["Sample (" ++ toString num_rows ++ " rows) from '" ++ t ++ "':\n" ++ format_result r.text]

/-- The `column_names` branch (lines 518-525). -/
def tool_column_names (eng : Engine) (args : Args) : Except Exn (List String) :=
  bindE (asStrArg (args "table_name")) fun t =>
  if !validate_table_name t then .ok ["Error: Invalid table name format"]
  else if !(table_exists eng (.vStr t)) then .ok ["Error: Table '" ++ t ++ "' not found"]
  else bindE (eng.run ("cols " ++ t)) fun r =>
  .ok ["Columns in '" ++ t ++ "':\n" ++ format_result r.text]

/-- The `distinct_values` branch (lines 530-539): `limit` is clamped by
`min(..., 500)` before the validators run. -/
def tool_distinct_values (eng : Engine) (args : Args) : Except Exn (List String) :=
  bindE (pyMinInt (args "limit") 50 500) fun limit =>
  bindE (asStrArg (args "table_name")) fun t =>
  if !validate_table_name t then .ok ["Error: Invalid table or column name"]
  else bindE (asStrArg (args "column_name")) fun c =>
  if !validate_column_name c then .ok ["Error: Invalid table or column name"]
  else if !(table_exists eng (.vStr t)) then .ok ["Error: Table '" ++ t ++ "' not found"]
  else bindE (eng.run (toString limit ++ "#distinct " ++ t ++ "\x60" ++ c)) fun r =>
  .ok ["Distinct values in '" ++ t ++ "." ++ c ++ "':\n" ++ format_result r.text]

/-- The `count_by_group` branch (lines 541-549). -/
def tool_count_by_group (eng : Engine) (args : Args) : Except Exn (List String) :=
  bindE (asStrArg (args "table_name")) fun t =>
  if !validate_table_name t then .ok ["Error: Invalid table or column name"]
  else bindE (asStrArg (args "group_column")) fun g =>
  if !validate_column_name g then .ok ["Error: Invalid table or column name"]
  else if !(table_exists eng (.vStr t)) then .ok ["Error: Table '" ++ t ++ "' not found"]
  else bindE (eng.run ("select cnt: count i by " ++ g ++ " from " ++ t)) fun r =>
  .ok ["Count by '" ++ g ++ "':\n" ++ format_result r.text]

/-- The `date_range` branch (lines 551-559): note that here, unlike
`data_points_per_day`, the date column IS validated. -/
def tool_date_range (eng : Engine) (args : Args) : Except Exn (List String) :=
  bindE (asStrArg (args "table_name")) fun t =>
  if !validate_table_name t then .ok ["Error: Invalid table or column name"]
  else bindE (asStrArg (some ((args "date_column").getD (.vStr "timestamp")))) fun d =>
  if !validate_column_name d then .ok ["Error: Invalid table or column name"]
  else if !(table_exists eng (.vStr t)) then .ok ["Error: Table '" ++ t ++ "' not found"]
  else bindE (eng.run ("select min_date: min " ++ d ++ ", max_date: max " ++ d ++ " from " ++ t)) fun r =>
  .ok ["Date range in '" ++ t ++ "':\n" ++ format_result r.text]

/-- The `data_points_per_day` branch (lines 561-570): only the table name is
validated; `date_column` and `limit` are interpolated as they came in. -/
def tool_data_points_per_day (eng : Engine) (args : Args) : Except Exn (List String) :=
  let date_column := (args "date_column").getD (.vStr "timestamp")
  let limit := (args "limit").getD (.vInt 10)
  bindE (asStrArg (args "table_name")) fun t =>
  if !validate_table_name t then .ok ["Error: Invalid table name"]
  else if !(table_exists eng (.vStr t)) then .ok ["Error: Table '" ++ t ++ "' not found"]
  else bindE (eng.run (pyStr limit ++ "#select cnt: count i by dt: \x60date$" ++ pyStr date_column ++ " from " ++ t)) fun r =>
  .ok ["Data points per day:\n" ++ format_result r.text]

/-- The `column_stats` branch (lines 572-580). -/
def tool_column_stats (eng : Engine) (args : Args) : Except Exn (List String) :=
  bindE (asStrArg (args "table_name")) fun t =>
  if !validate_table_name t then .ok ["Error: Invalid table or column name"]
  else bindE (asStrArg (args "column_name")) fun c =>
  if !validate_column_name c then .ok ["Error: Invalid table or column name"]
  else if !(table_exists eng (.vStr t)) then .ok ["Error: Table '" ++ t ++ "' not found"]
  else bindE (eng.run ("select cnt: count " ++ c ++ ", nulls: sum null " ++ c ++ ", distinct_cnt: count distinct " ++ c ++ " from " ++ t)) fun r =>
  .ok ["Stats for '" ++ t ++ "." ++ c ++ "':\n" ++ format_result r.text]

/-- The `average_price_by_symbol` branch (lines 585-591): neither
`table_name` nor `price_column` passes a validator; the only gate on the
table name is registry membership. -/
def tool_average_price_by_symbol (eng : Engine) (args : Args) : Except Exn (List String) :=
  let table_name := (args "table_name").getD (.vStr "stocks")
  let price_column := (args "price_column").getD (.vStr "close")
  if !(table_exists eng table_name) then
    .ok ["Error: Table '" ++ pyStr table_name ++ "' not found"]
  else bindE (eng.run ("select avg_" ++ pyStr price_column ++ ": avg " ++ pyStr price_column ++ " by symbol from " ++ pyStr table_name)) fun r =>
  .ok ["Average " ++ pyStr price_column ++ " by symbol:\n" ++ format_result r.text]

/-- The `price_range_by_symbol` branch (lines 593-599). -/
def tool_price_range_by_symbol (eng : Engine) (args : Args) : Except Exn (List String) :=
  let table_name := (args "table_name").getD (.vStr "stocks")
  let p := pyStr ((args "price_column").getD (.vStr "close"))
  if !(table_exists eng table_name) then
    .ok ["Error: Table '" ++ pyStr table_name ++ "' not found"]
  else bindE (eng.run ("select min_" ++ p ++ ": min " ++ p ++ ", max_" ++ p ++ ": max " ++ p ++ ", price_range: (max " ++ p ++ ") - min " ++ p ++ " by symbol from " ++ pyStr table_name)) fun r =>
  .ok ["Price range by symbol:\n" ++ format_result r.text]

/-- The `highest_prices` branch (lines 601-607). -/
def tool_highest_prices (eng : Engine) (args : Args) : Except Exn (List String) :=
  let table_name := (args "table_name").getD (.vStr "stocks")
  let p := pyStr ((args "price_column").getD (.vStr "close"))
  if !(table_exists eng table_name) then
    .ok ["Error: Table '" ++ pyStr table_name ++ "' not found"]
  else bindE (eng.run ("select max_" ++ p ++ ": max " ++ p ++ " by symbol from " ++ pyStr table_name)) fun r =>
  .ok ["Highest " ++ p ++ " by symbol:\n" ++ format_result r.text]

/-- The `price_volatility` branch (lines 609-615). -/
def tool_price_volatility (eng : Engine) (args : Args) : Except Exn (List String) :=
  let table_name := (args "table_name").getD (.vStr "stocks")
  let p := pyStr ((args "price_column").getD (.vStr "close"))
  if !(table_exists eng table_name) then
    .ok ["Error: Table '" ++ pyStr table_name ++ "' not found"]
  else bindE (eng.run ("select volatility: dev " ++ p ++ " by symbol from " ++ pyStr table_name)) fun r =>
  .ok ["Price volatility (std dev) by symbol:\n" ++ format_result r.text]

/-- The `price_statistics` branch (lines 617-623). -/
def tool_price_statistics (eng : Engine) (args : Args) : Except Exn (List String) :=
  let table_name := (args "table_name").getD (.vStr "stocks")
  let p := pyStr ((args "price_column").getD (.vStr "close"))
  if !(table_exists eng table_name) then
    .ok ["Error: Table '" ++ pyStr table_name ++ "' not found"]
  else bindE (eng.run ("select avg_" ++ p ++ ": avg " ++ p ++ ", median_" ++ p ++ ": med " ++ p ++ ", std_" ++ p ++ ": dev " ++ p ++ " by symbol from " ++ pyStr table_name)) fun r =>
  .ok ["Price statistics by symbol:\n" ++ format_result r.text]

/-- The `average_volume_by_symbol` branch (lines 628-633). -/
def tool_average_volume_by_symbol (eng : Engine) (args : Args) : Except Exn (List String) :=
  let table_name := (args "table_name").getD (.vStr "stocks")
  if !(table_exists eng table_name) then
    .ok ["Error: Table '" ++ pyStr table_name ++ "' not found"]
  else bindE (eng.run ("select avg_volume: avg volume by symbol from " ++ pyStr table_name)) fun r =>
  .ok ["Average volume by symbol:\n" ++ format_result r.text]

/-- The `total_volume_by_symbol` branch (lines 635-640). -/
def tool_total_volume_by_symbol (eng : Engine) (args : Args) : Except Exn (List String) :=
  let table_name := (args "table_name").getD (.vStr "stocks")
  if !(table_exists eng table_name) then
    .ok ["Error: Table '" ++ pyStr table_name ++ "' not found"]
  else bindE (eng.run ("select total_volume: sum volume by symbol from " ++ pyStr table_name)) fun r =>
  .ok ["Total volume by symbol:\n" ++ format_result r.text]

/-- The `top_volume_records` branch (lines 642-648): `limit` is NOT clamped
— `arguments.get("limit", 10)` is interpolated as it came in. -/
def tool_top_volume_records (eng : Engine) (args : Args) : Except Exn (List String) :=
  let table_name := (args "table_name").getD (.vStr "stocks")
  let limit := (args "limit").getD (.vInt 10)
  if !(table_exists eng table_name) then
    .ok ["Error: Table '" ++ pyStr table_name ++ "' not found"]
  else bindE (eng.run (pyStr limit ++ " sublist \x60volume xdesc select symbol, timestamp, volume from " ++ pyStr table_name)) fun r =>
  .ok ["Top " ++ pyStr limit ++ " highest volume records:\n" ++ format_result r.text]

/-- The `filter_by_symbol` branch (lines 653-663): the symbol is uppercased
before interpolation; `limit` is clamped by `min(..., 1000)`. -/
def tool_filter_by_symbol (eng : Engine) (args : Args) : Except Exn (List String) :=
  let table_name := (args "table_name").getD (.vStr "stocks")
  bindE (pyUpperOf (args "symbol")) fun symbol =>
  bindE (pyMinInt (args "limit") 100 1000) fun limit =>
  if symbol == "" then .ok ["Error: symbol is required"]
  else if !(table_exists eng table_name) then
    .ok ["Error: Table '" ++ pyStr table_name ++ "' not found"]
  else bindE (eng.run (toString limit ++ "#select from " ++ pyStr table_name ++ " where symbol like \"" ++ symbol ++ "\"")) fun r =>
  bindE (eng.run ("count select from " ++ pyStr table_name ++ " where symbol like \"" ++ symbol ++ "\"")) fun rc =>
  bindE (asPyInt rc) fun count =>
  .ok ["Data for " ++ symbol ++ " (" ++ commaFmt count ++ " total rows, showing " ++ toString limit ++ "):\n" ++ format_result r.text]

/-- The `filter_by_price_threshold` branch (lines 665-677). -/
def tool_filter_by_price_threshold (eng : Engine) (args : Args) : Except Exn (List String) :=
  let table_name := (args "table_name").getD (.vStr "stocks")
  let p := pyStr ((args "price_column").getD (.vStr "close"))
  match args "threshold" with
  | none => .ok ["Error: threshold is required"]
  | some threshold =>
    if !(table_exists eng table_name) then
      .ok ["Error: Table '" ++ pyStr table_name ++ "' not found"]
    else
      let op := opOf ((args "operator").getD (.vStr "gt"))
      bindE (eng.run ("select cnt: count i, symbols: distinct symbol from " ++ pyStr table_name ++ " where " ++ p ++ " " ++ op ++ " " ++ pyStr threshold)) fun r =>
      .ok ["Records where " ++ p ++ " " ++ op ++ " " ++ pyStr threshold ++ ":\n" ++ format_result r.text]

/-- The `filter_by_date` branch (lines 679-694): Python truthiness selects
the year form, then the range form, then the error. -/
def tool_filter_by_date (eng : Engine) (args : Args) : Except Exn (List String) :=
  let table_name := (args "table_name").getD (.vStr "stocks")
  if !(table_exists eng table_name) then
    .ok ["Error: Table '" ++ pyStr table_name ++ "' not found"]
  else if truthy (args "year") then
    let year := pyStr ((args "year").getD (.vInt 0))
    bindE (eng.run ("select cnt: count i by symbol from " ++ pyStr table_name ++ " where timestamp >= " ++ year ++ ".01.01")) fun r =>
    .ok ["Data from " ++ year ++ " onward:\n" ++ format_result r.text]
  else if truthy (args "start_date") && truthy (args "end_date") then
    let sd := pyStr ((args "start_date").getD (.vStr ""))
    let ed := pyStr ((args "end_date").getD (.vStr ""))
    bindE (eng.run ("select cnt: count i by symbol from " ++ pyStr table_name ++ " where timestamp >= " ++ sd ++ ", timestamp <= " ++ ed)) fun r =>
    .ok ["Data from " ++ sd ++ " to " ++ ed ++ ":\n" ++ format_result r.text]
  else .ok ["Error: Provide either 'year' or both 'start_date' and 'end_date'"]

/-- The `symbol_summary` branch (lines 696-704): symbol uppercased before
interpolation. -/
def tool_symbol_summary (eng : Engine) (args : Args) : Except Exn (List String) :=
  let table_name := (args "table_name").getD (.vStr "stocks")
  bindE (pyUpperOf (args "symbol")) fun symbol =>
  if symbol == "" then .ok ["Error: symbol is required"]
  else if !(table_exists eng table_name) then
    .ok ["Error: Table '" ++ pyStr table_name ++ "' not found"]
  else bindE (eng.run ("select cnt: count i, avg_close: avg close, avg_volume: avg volume from " ++ pyStr table_name ++ " where symbol like \"" ++ symbol ++ "\"")) fun r =>
  .ok ["Summary for " ++ symbol ++ ":\n" ++ format_result r.text]

/-- The `daily_ohlc` branch (lines 709-718): symbol uppercased; `limit`
NOT clamped. -/
def tool_daily_ohlc (eng : Engine) (args : Args) : Except Exn (List String) :=
  let table_name := (args "table_name").getD (.vStr "stocks")
  bindE (pyUpperOf (args "symbol")) fun symbol =>
  let limit := (args "limit").getD (.vInt 10)
  if symbol == "" then .ok ["Error: symbol is required"]
  else if !(table_exists eng table_name) then
    .ok ["Error: Table '" ++ pyStr table_name ++ "' not found"]
  else bindE (eng.run (pyStr limit ++ " sublist \x60dt xdesc select open: first open, high: max high, low: min low, close: last close, volume: sum volume by dt: \x60date$timestamp from " ++ pyStr table_name ++ " where symbol like \"" ++ symbol ++ "\"")) fun r =>
  .ok ["Daily OHLC for " ++ symbol ++ " (last " ++ pyStr limit ++ " days):\n" ++ format_result r.text]

/-- The `price_change_analysis` branch (lines 720-725). -/
def tool_price_change_analysis (eng : Engine) (args : Args) : Except Exn (List String) :=
  let table_name := (args "table_name").getD (.vStr "stocks")
  if !(table_exists eng table_name) then
    .ok ["Error: Table '" ++ pyStr table_name ++ "' not found"]
  else bindE (eng.run ("select avg_daily_range: avg (high - low), avg_spread_pct: avg 100 * (high - low) % low by symbol from " ++ pyStr table_name)) fun r =>
  .ok ["Price change analysis by symbol:\n" ++ format_result r.text]

/-- The `execute_query` branch (lines 727-742): danger scan, one engine
round trip, and — when the result has a length exceeding `max_rows` — a
second engine call applying the take-function `"{max_rows}#"` to the
already-fetched result.  A failure of that second call is swallowed by the
bare `except: pass` and the untruncated result is rendered. -/
def tool_execute_query (eng : Engine) (args : Args) : Except Exn (List String) :=
  bindE (pyStripOf (args "query")) fun query =>
  bindE (pyMinInt (args "max_rows") 100 10000) fun max_rows =>
  if query == "" then .ok ["Error: query is required"]
  else
    let scan := is_dangerous_query query
    if scan.1 then .ok ["Error: Query blocked for safety. " ++ scan.2]
    else bindE (eng.run query) fun result =>
    match result.len? with
    | some n =>
      if (n : Int) > max_rows then
        match eng.apply (toString max_rows ++ "#") result with
        | .ok r2 =>
          .ok ["Query result (limited to " ++ toString max_rows ++ " rows):\n" ++ format_result r2.text]
        | .error _ =>
          .ok ["Query result:\n" ++ format_result result.text]
      else .ok ["Query result:\n" ++ format_result result.text]
    | none => .ok ["Query result:\n" ++ format_result result.text]

/-- The `server_info` branch (lines 747-763). -/
def tool_server_info (cfg : Config) (eng : Engine) : Except Exn (List String) :=
  let infoLines := eng.tables.map (fun t =>
    match eng.run ("count " ++ t) with
    | .ok r =>
      match r.pyInt? with
      | some n => "    " ++ t ++ ": " ++ commaFmt n ++ " rows"
      | none => "    " ++ t ++ ": N/A"
    | .error _ => "    " ++ t ++ ": N/A")
  .ok ["KDB+/PyKX Server Info:\n  PyKX Version: " ++ cfg.version ++
    "\n  PyKX Licensed: " ++ pyBoolStr cfg.licensed ++
    "\n  Data Directory: " ++ dataDirStr cfg.dataDir ++
    "\n  Loaded Tables (" ++ toString eng.tables.length ++ "):\n" ++ joinNl infoLines]

/-- The `load_table` branch (lines 765-781). -/
def tool_load_table (cfg : Config) (eng : Engine) (args : Args) : Except Exn (List String) :=
  if !(truthy (args "table_path")) then .ok ["Error: table_path is required"]
  else bindE (asStrArg (args "table_path")) fun p =>
  if !(cfg.fsExists p) then .ok ["Error: Path '" ++ p ++ "' does not exist"]
  else if !(cfg.fsExists (joinDotD p)) then
    .ok ["Error: '" ++ p ++ "' is not a valid splayed table"]
  else bindE
    (if truthy (args "table_name") then asStrArg (args "table_name")
     else .ok (pathName p)) fun tn =>
  if !validate_table_name tn then .ok ["Error: Invalid table name format"]
  else bindE (eng.run (tn ++ ": get\x60:" ++ p)) fun _ =>
  bindE (eng.run ("count " ++ tn)) fun rc =>
  bindE (asPyInt rc) fun count =>
  .ok ["Loaded table '" ++ tn ++ "' with " ++ commaFmt count ++ " rows"]

/-- The body of `call_tool` (kdb_mcp_server.py lines 474-784): the name
dispatch inside the `try` block. -/
def call_tool_body (cfg : Config) (eng : Engine) (name : String) (args : Args) :
    Except Exn (List String) :=
  match name with
  | "list_tables" => tool_list_tables eng
  | "table_schema" => tool_table_schema eng args
  | "table_count" => tool_table_count eng args
  | "table_sample" => tool_table_sample eng args
  | "column_names" => tool_column_names eng args
  | "distinct_values" => tool_distinct_values eng args
  | "count_by_group" => tool_count_by_group eng args
  | "date_range" => tool_date_range eng args
  | "data_points_per_day" => tool_data_points_per_day eng args
  | "column_stats" => tool_column_stats eng args
  | "average_price_by_symbol" => tool_average_price_by_symbol eng args
  | "price_range_by_symbol" => tool_price_range_by_symbol eng args
  | "highest_prices" => tool_highest_prices eng args
  | "price_volatility" => tool_price_volatility eng args
  | "price_statistics" => tool_price_statistics eng args
  | "average_volume_by_symbol" => tool_average_volume_by_symbol eng args
  | "total_volume_by_symbol" => tool_total_volume_by_symbol eng args
  | "top_volume_records" => tool_top_volume_records eng args
  | "filter_by_symbol" => tool_filter_by_symbol eng args
  | "filter_by_price_threshold" => tool_filter_by_price_threshold eng args
  | "filter_by_date" => tool_filter_by_date eng args
  | "symbol_summary" => tool_symbol_summary eng args
  | "daily_ohlc" => tool_daily_ohlc eng args
  | "price_change_analysis" => tool_price_change_analysis eng args
  | "execute_query" => tool_execute_query eng args
  | "server_info" => tool_server_info cfg eng
  | "load_table" => tool_load_table cfg eng args
  | other => .ok ["Unknown tool: " ++ other]

/-- The dispatcher's exception boundary (lines 786-790): `QError` keeps the
engine's message under the `KDB+ Error:` prefix, every other exception is
reported generically. -/
def exnText : Exn → String
  | .qerror m => "KDB+ Error: " ++ m
  | .typeError m => "Error: " ++ m
  | .attrError m => "Error: " ++ m
  | .other m => "Error: " ++ m

/-- `call_tool` (kdb_mcp_server.py lines 474-790): the dispatched body with
its surrounding `try`/`except` converted into a total function.  Each
returned string is the `text` of one `TextContent(type="text")` block. -/
def call_tool (cfg : Config) (eng : Engine) (name : String) (args : Args) : List String :=
  match call_tool_body cfg eng name args with
  | .ok r => r
  | .error e => [exnText e]

/-- The spec-side characterisation that actually matches the implementation:
a strict identifier, or a strict identifier followed by one trailing
newline (the regex anchor `$` also matches just before a final newline). -/
def specIdentOrNl (s : String) : Bool :=
  specIdent s || ((s.data.getLast? == some '\n') && specIdent ⟨s.data.dropLast⟩)

/-- `format_result` on an arbitrary Python object: `strFn` is the behaviour
of `str(result)` (deterministic, possibly raising).  The `try` body calls it
once; the `except Exception` handler (line 104-105) executes
`return str(result)`, which re-evaluates the same call — so when `str`
itself raises, the handler raises the same exception again and it escapes
the function. -/
def format_result_obj (strFn : Except Exn String) (max_width : Nat := 120) :
    Except Exn String :=
  match strFn with
  | .ok s => .ok (format_result s max_width)
  | .error _ => strFn

/-- Override one key of an argument mapping (used to state clamping as an
input-equivalence). -/
def setArg (a : Args) (k : String) (v : Val) : Args :=
  fun x => if x == k then some v else a x

/-- A benign default configuration for concrete test fixtures. -/
def cfgDefault : Config := {}

/-- An engine oracle that answers every query with the query text itself:
whatever appears in its response reached the engine verbatim. -/
def echoEngine : Engine :=
  { tables := ["stocks"],
    run := fun q => .ok { text := q },
    apply := fun f r => .ok { text := "APPLY(" ++ f ++ ";" ++ r.text ++ ")" } }

/-- An engine whose every call raises a `QError` with message `type`. -/
def qerrEngine : Engine :=
  { tables := ["stocks"],
    run := fun _ => .error (.qerror "type"),
    apply := fun _ _ => .error (.qerror "type") }

/-- An engine whose results always report 20000 rows (for the row-cap
fixtures of the free-form query tool). -/
def bigEngine : Engine :=
  { tables := ["stocks"],
    run := fun _ => .ok { text := "RES", len? := some 20000 },
    apply := fun f r => .ok { text := f ++ r.text } }

/-- An engine distinguishing the two possible second calls of
`execute_query`: re-running query text through `run` is marked `RERUN`,
applying a function to a fetched result through `apply` is marked `TAKE`. -/
def c7Engine : Engine :=
  { tables := ["stocks"],
    run := fun q =>
      if q == "select from t" then .ok { text := "FULL", len? := some 5 }
      else .ok { text := "RERUN:" ++ q, len? := some 1 },
    apply := fun f r => .ok { text := "TAKE(" ++ f ++ ")(" ++ r.text ++ ")" } }

/-- The empty argument mapping (every key absent). -/
def noArgs : Args := fun _ => none

/-- Arguments for the C1 injection fixture: a valid table, and a
`date_column` that fails the identifier grammar. -/
def c1Args : Args := fun k =>
  if k == "table_name" then some (.vStr "stocks")
  else if k == "date_column" then some (.vStr "bad col!") else none

/-- Arguments for the C1 price-column fixture: a `price_column` that fails
the identifier grammar (the tool validates nothing). -/
def c1bArgs : Args := fun k =>
  if k == "price_column" then some (.vStr "close; x") else none

/-- `table_sample` fixture arguments: `num_rows` above the documented cap. -/
def c4SampleArgs : Args := fun k =>
  if k == "table_name" then some (.vStr "stocks")
  else if k == "num_rows" then some (.vInt 500) else none

/-- `distinct_values` fixture arguments: `limit` above the documented cap. -/
def c4DistinctArgs : Args := fun k =>
  if k == "table_name" then some (.vStr "stocks")
  else if k == "column_name" then some (.vStr "symbol")
  else if k == "limit" then some (.vInt 10000) else none

/-- `execute_query` fixture arguments: `max_rows` above the documented cap. -/
def c4ExecArgs : Args := fun k =>
  if k == "query" then some (.vStr "select from stocks")
  else if k == "max_rows" then some (.vInt 99999) else none

/-- `top_volume_records` fixture arguments: a large `limit`. -/
def c4TopArgs : Args := fun k =>
  if k == "table_name" then some (.vStr "stocks")
  else if k == "limit" then some (.vInt 5000) else none

/-- A single-key argument mapping carrying a valid table name. -/
def stocksArgs : Args := fun k =>
  if k == "table_name" then some (.vStr "stocks") else none

/-- `execute_query` fixture arguments for the row-cap re-fetch path. -/
def c7Args : Args := fun k =>
  if k == "query" then some (.vStr "select from t")
  else if k == "max_rows" then some (.vInt 2) else none

/-- A symbol argument in lowercase. -/
def c10Args1 : Args := fun k =>
  if k == "symbol" then some (.vStr "nvda") else none

/-- The same symbol argument in mixed case. -/
def c10Args2 : Args := fun k =>
  if k == "symbol" then some (.vStr "NvDa") else none

theorem identTail_eq (cs : List Char) :
    identTail cs =
      (cs.all isIdentChar || ((cs.getLast? == some '\n') && cs.dropLast.all isIdentChar)) := by
  induction cs with
  | nil => simp [identTail]
  | cons c rest ih =>
    cases rest with
    | nil =>
      simp only [identTail, List.isEmpty, Bool.and_true, List.all_cons, List.all_nil,
        List.getLast?_singleton, List.dropLast_single, Option.some.injEq, beq_iff_eq]
      cases hc : (c == '\n') <;> cases hi : isIdentChar c <;> simp_all
    | cons d ds =>
      have h1 : (c :: d :: ds).getLast? = (d :: ds).getLast? := List.getLast?_cons_cons
      have h2 : (c :: d :: ds).dropLast = c :: (d :: ds).dropLast := rfl
      rw [identTail, ih, h1, h2, List.all_cons, List.all_cons]
      simp only [List.isEmpty_cons, Bool.and_false, Bool.false_or]
      cases hi : isIdentChar c <;> simp [hi]

theorem pyMatchIdent_eq (s : String) : pyMatchIdent s = specIdentOrNl s := by
  cases s with
  | mk data =>
    cases data with
    | nil => simp [pyMatchIdent, specIdentOrNl, specIdent]
    | cons c rest =>
      cases rest with
      | nil =>
        simp only [pyMatchIdent, specIdentOrNl, specIdent, identTail_eq, List.all_nil,
          List.getLast?_singleton, List.dropLast_single, Option.some.injEq, beq_iff_eq]
        cases hc : (c == '\n') <;> cases hi : isIdentStart c <;>
          simp_all [isIdentChar, isIdentStart]
      | cons d ds =>
        have h1 : (c :: d :: ds).getLast? = (d :: ds).getLast? := List.getLast?_cons_cons
        have h2 : (c :: d :: ds).dropLast = c :: (d :: ds).dropLast := rfl
        simp only [pyMatchIdent, specIdentOrNl, specIdent, identTail_eq]
        rw [h1, h2, List.all_cons]
        cases hi : isIdentStart c <;> cases hl : ((d :: ds).getLast? == some '\n') <;>
          simp [hi, hl, List.all_cons]

theorem findDanger_eq (L : List ((Option Char → List Char → Bool) × String)) (q : String) :
    findDanger L q =
      (match L.find? (fun pr => reSearch pr.1 q) with
       | some pr => (true, "Query contains dangerous pattern: " ++ pr.2)
       | none => (false, "")) := by
  induction L with
  | nil => rfl
  | cons mp rest ih =>
    obtain ⟨m, p⟩ := mp
    rw [findDanger]
    cases hm : reSearch m q <;> simp [List.find?_cons, hm, ih]

theorem dangerous_iff (q : String) :
    (is_dangerous_query q).1 = true ↔
      ∃ pr ∈ DANGEROUS_PATTERNS, reSearch pr.1 q = true := by
  rw [is_dangerous_query, findDanger_eq]
  cases hf : DANGEROUS_PATTERNS.find? (fun pr => reSearch pr.1 q) with
  | none =>
    simp only []
    constructor
    · intro h; cases h
    · rintro ⟨pr, hmem, hsearch⟩
      have := List.find?_eq_none.mp hf pr hmem
      simp [hsearch] at this
  | some pr =>
    simp only []
    constructor
    · intro _
      refine ⟨pr, List.mem_of_find?_eq_some hf, ?_⟩
      have hp := List.find?_some hf
      simpa using hp
    · intro _; trivial

theorem asciiUpper_asciiLower (c : Char) : asciiUpper (asciiLower c) = asciiUpper c := by
  unfold asciiLower
  split <;> rfl

theorem map_upper_of_map_lower (l1 l2 : List Char)
    (h : l1.map asciiLower = l2.map asciiLower) : l1.map asciiUpper = l2.map asciiUpper := by
  induction l1 generalizing l2 with
  | nil => cases l2 with
    | nil => rfl
    | cons d ds => simp at h
  | cons c cs ih =>
    cases l2 with
    | nil => simp at h
    | cons d ds =>
      simp only [List.map_cons, List.cons.injEq] at h ⊢
      refine ⟨?_, ih ds h.2⟩
      calc asciiUpper c = asciiUpper (asciiLower c) := (asciiUpper_asciiLower c).symm
        _ = asciiUpper (asciiLower d) := by rw [h.1]
        _ = asciiUpper d := asciiUpper_asciiLower d

theorem pyUpper_eq_of_lower (s1 s2 : String)
    (h : s1.data.map asciiLower = s2.data.map asciiLower) : pyUpper s1 = pyUpper s2 :=
  congrArg String.mk (map_upper_of_map_lower s1.data s2.data h)

set_option maxHeartbeats 1000000 in
theorem call_tool_body_singleton (cfg : Config) (eng : Engine) (name : String) (a : Args)
    (r : List String) (h : call_tool_body cfg eng name a = .ok r) : ∃ s, r = [s] := by
  unfold call_tool_body tool_list_tables tool_table_schema tool_table_count tool_table_sample
    tool_column_names tool_distinct_values tool_count_by_group tool_date_range
    tool_data_points_per_day tool_column_stats tool_average_price_by_symbol
    tool_price_range_by_symbol tool_highest_prices tool_price_volatility tool_price_statistics
    tool_average_volume_by_symbol tool_total_volume_by_symbol tool_top_volume_records
    tool_filter_by_symbol tool_filter_by_price_threshold tool_filter_by_date
    tool_symbol_summary tool_daily_ohlc tool_price_change_analysis tool_execute_query
    tool_server_info tool_load_table at h
  simp only [bindE] at h
  repeat' split at h
  all_goals (first
    | (cases h; exact ⟨_, rfl⟩)
    | simp_all)

/-- C1: the claim states that every identifier-shaped slot of every composed
query is filled only from values that passed the identifier validator.  The
code violates it: `data_points_per_day` interpolates `date_column` and
`average_price_by_symbol` interpolates `price_column` (and the table name)
with no validator call.  Evaluated at the failing inputs against the echo
engine (whose responses repeat the query it received verbatim), a value the
validator rejects appears inside the query the engine was sent. -/
theorem C1_thm :
    validate_column_name "bad col!" = false ∧
    call_tool cfgDefault echoEngine "data_points_per_day" c1Args =
      ["Data points per day:\n10#select cnt: count i by dt: \x60date$bad col! from stocks"] ∧
    validate_column_name "close; x" = false ∧
    call_tool cfgDefault echoEngine "average_price_by_symbol" c1bArgs =
      ["Average close; x by symbol:\nselect avg_close; x: avg close; x by symbol from stocks"] := by
  decide

/-- C2 counterexample: the claim says `validate` accepts exactly the strings
of the identifier grammar and rejects any string containing whitespace; but
the implementation accepts `"a\n"`, which ends in a newline and is not in
the grammar (CPython's `$` also matches before a trailing newline). -/
theorem C2_counterexample :
    validate_table_name "a\n" = true ∧
    specIdent "a\n" = false ∧
    ¬ (validate_table_name "a\n" = specIdent "a\n") := by decide

/-- C2 (amended): for every string s, `validate_table_name` /
`validate_column_name` return true iff s matches the identifier grammar
`^[A-Za-z_][A-Za-z0-9_]*$` where the anchor `$` also accepts one trailing
newline: s is a strict identifier, or a strict identifier followed by a
single final `'\n'`.  Every other string (empty, leading digit,
punctuation, other whitespace, query metacharacters) is rejected. -/
theorem C2_thm :
    ∀ s : String,
      validate_table_name s = specIdentOrNl s ∧ validate_column_name s = specIdentOrNl s :=
  fun s => ⟨pyMatchIdent_eq s, pyMatchIdent_eq s⟩

/-- C3: `is_dangerous_query` returns `(true, reason)` iff the query matches
some pattern of the fixed ordered danger list under case-insensitive search,
with `reason` naming the first matching pattern in list order, and returns
`(false, "")` on every query matching no pattern; concrete instances cover
the whole-word `drop` / `delete from` / `system` / `exit` patterns, the
first-in-list-order tie-break, and a clean query. -/
theorem C3_thm :
    (∀ q : String, is_dangerous_query q =
      (match DANGEROUS_PATTERNS.find? (fun pr => reSearch pr.1 q) with
       | some pr => (true, "Query contains dangerous pattern: " ++ pr.2)
       | none => (false, ""))) ∧
    (∀ q : String, (is_dangerous_query q).1 = true ↔
      ∃ pr ∈ DANGEROUS_PATTERNS, reSearch pr.1 q = true) ∧
    is_dangerous_query "delete from stocks" =
      (true, "Query contains dangerous pattern: \\bdelete\\s+from\\b") ∧
    is_dangerous_query "DROP table" = (true, "Query contains dangerous pattern: \\bdrop\\b") ∧
    is_dangerous_query "please exit now" = (true, "Query contains dangerous pattern: \\bexit\\b") ∧
    is_dangerous_query "call system x" = (true, "Query contains dangerous pattern: \\bsystem\\b") ∧
    is_dangerous_query "exit; drop x" = (true, "Query contains dangerous pattern: \\bdrop\\b") ∧
    is_dangerous_query "select from stocks where close>100" = (false, "") :=
  ⟨fun q => findDanger_eq DANGEROUS_PATTERNS q, dangerous_iff,
   by decide, by decide, by decide, by decide, by decide, by decide⟩

/-- C5: rendering respects the caps.  When the textual form splits into more
than 100 lines, the formatted output is exactly the 100 truncated content
lines plus one `... (N more rows)` summary line (101 lines in all, with
N the number of dropped lines); and any line longer than `max_width` is
replaced by its first `max_width` characters plus `...`, total length
`max_width + 3`.  (`format_result` is by definition the `'\n'`-join of
`format_lines` over the split lines.) -/
theorem C5_thm (lines : List String) (mw : Nat) (h : 100 < lines.length) :
    (format_lines lines mw).length = 101 ∧
    format_lines lines mw =
      (lines.take 100).map (truncLine mw) ++
        ["... (" ++ toString (lines.length - 100) ++ " more rows)"] ∧
    (∀ s : String, format_result s mw =
      joinNl (format_lines ((splitNl s.data).map String.mk) mw)) ∧
    ∀ line : String, mw < line.length →
      truncLine mw line = pyTake line mw ++ "..." ∧ (truncLine mw line).length = mw + 3 := by
  refine ⟨?_, ?_, fun s => rfl, ?_⟩
  · simp [format_lines, h, List.length_take, Nat.min_eq_left (Nat.le_of_lt h)]
  · simp [format_lines, h]
  · intro line hl
    have h0 : (pyTake line mw).length = (line.data.take mw).length := rfl
    have h1 : (pyTake line mw).length = mw := by
      rw [h0, List.length_take]
      exact Nat.min_eq_left (Nat.le_of_lt hl)
    constructor
    · unfold truncLine
      rw [if_pos hl]
    · unfold truncLine
      rw [if_pos hl, String.length_append, h1]
      rfl

/-- C5 witness: a 102-line input is rendered as 101 lines whose tail is the
`... (2 more rows)` marker, and a 4-character line under width 2 becomes
`ab...` of length 5. -/
theorem C5_witness :
    100 < (List.replicate 102 "x").length ∧
    (format_lines (List.replicate 102 "x") 120).length = 101 ∧
    format_lines (List.replicate 102 "x") 120 =
      ((List.replicate 102 "x").take 100).map (truncLine 120) ++ ["... (2 more rows)"] ∧
    truncLine 2 "abcd" = pyTake "abcd" 2 ++ "..." ∧
    (truncLine 2 "abcd").length = 2 + 3 :=
  have h : 100 < (List.replicate 102 "x").length := by decide
  ⟨h, (C5_thm (List.replicate 102 "x") 120 h).1,
   (C5_thm (List.replicate 102 "x") 120 h).2.1,
   ((C5_thm (List.replicate 102 "x") 2 h).2.2.2 "abcd" (by decide)).1,
   ((C5_thm (List.replicate 102 "x") 2 h).2.2.2 "abcd" (by decide)).2⟩

/-- C4 counterexample: the claim quantifies over every tool with a
limit/row-count parameter, but `top_volume_records` does not clamp its
`limit` at all — a caller-supplied 5000 reaches the query template verbatim
(echo engine: the response repeats the query the engine received). -/
theorem C4_counterexample :
    call_tool cfgDefault echoEngine "top_volume_records" c4TopArgs =
      ["Top 5000 highest volume records:\n5000 sublist \x60volume xdesc select symbol, timestamp, volume from stocks"] := by
  decide

/-- C4 (amended): the three tools the claim names do clamp before the value
reaches the template — `table_sample` to 100, `distinct_values` to 500,
`execute_query` to 10000: supplying n is observably equivalent (for every
engine) to supplying `min n cap`, and against the echo engine the clamped
value is the one appearing in the composed query; but `top_volume_records`
(and likewise `data_points_per_day`, `daily_ohlc`) pass their limit through
unclamped. -/
theorem C4_thm :
    (∀ (cfg : Config) (eng : Engine) (a : Args) (n : Int),
      a "num_rows" = some (.vInt n) →
      call_tool cfg eng "table_sample" a =
        call_tool cfg eng "table_sample" (setArg a "num_rows" (.vInt (min n 100)))) ∧
    (∀ (cfg : Config) (eng : Engine) (a : Args) (n : Int),
      a "limit" = some (.vInt n) →
      call_tool cfg eng "distinct_values" a =
        call_tool cfg eng "distinct_values" (setArg a "limit" (.vInt (min n 500)))) ∧
    (∀ (cfg : Config) (eng : Engine) (a : Args) (n : Int),
      a "max_rows" = some (.vInt n) →
      call_tool cfg eng "execute_query" a =
        call_tool cfg eng "execute_query" (setArg a "max_rows" (.vInt (min n 10000)))) ∧
    call_tool cfgDefault echoEngine "table_sample" c4SampleArgs =
      ["Sample (100 rows) from 'stocks':\n100#stocks"] ∧
    call_tool cfgDefault echoEngine "distinct_values" c4DistinctArgs =
      ["Distinct values in 'stocks.symbol':\n500#distinct stocks\x60symbol"] ∧
    call_tool cfgDefault bigEngine "execute_query" c4ExecArgs =
      ["Query result (limited to 10000 rows):\n10000#RES"] := by
  refine ⟨?_, ?_, ?_, by decide, by decide, by decide⟩
  · intro cfg eng a n h
    have e1 : call_tool_body cfg eng "table_sample" a = tool_table_sample eng a := rfl
    have e2 : call_tool_body cfg eng "table_sample" (setArg a "num_rows" (.vInt (min n 100))) =
        tool_table_sample eng (setArg a "num_rows" (.vInt (min n 100))) := rfl
    unfold call_tool
    rw [e1, e2]
    unfold tool_table_sample
    rw [h]
    have h2 : setArg a "num_rows" (.vInt (min n 100)) "num_rows" =
        some (.vInt (min n 100)) := by simp [setArg]
    have h3 : setArg a "num_rows" (.vInt (min n 100)) "table_name" = a "table_name" := by
      simp [setArg]
    rw [h2, h3]
    simp [pyMinInt, min_assoc]
  · intro cfg eng a n h
    have e1 : call_tool_body cfg eng "distinct_values" a = tool_distinct_values eng a := rfl
    have e2 : call_tool_body cfg eng "distinct_values" (setArg a "limit" (.vInt (min n 500))) =
        tool_distinct_values eng (setArg a "limit" (.vInt (min n 500))) := rfl
    unfold call_tool
    rw [e1, e2]
    unfold tool_distinct_values
    rw [h]
    have h2 : setArg a "limit" (.vInt (min n 500)) "limit" = some (.vInt (min n 500)) := by
      simp [setArg]
    have h3 : setArg a "limit" (.vInt (min n 500)) "table_name" = a "table_name" := by
      simp [setArg]
    have h4 : setArg a "limit" (.vInt (min n 500)) "column_name" = a "column_name" := by
      simp [setArg]
    rw [h2, h3, h4]
    simp [pyMinInt, min_assoc]
  · intro cfg eng a n h
    have e1 : call_tool_body cfg eng "execute_query" a = tool_execute_query eng a := rfl
    have e2 : call_tool_body cfg eng "execute_query" (setArg a "max_rows" (.vInt (min n 10000))) =
        tool_execute_query eng (setArg a "max_rows" (.vInt (min n 10000))) := rfl
    unfold call_tool
    rw [e1, e2]
    unfold tool_execute_query
    rw [h]
    have h2 : setArg a "max_rows" (.vInt (min n 10000)) "max_rows" =
        some (.vInt (min n 10000)) := by simp [setArg]
    have h3 : setArg a "max_rows" (.vInt (min n 10000)) "query" = a "query" := by
      simp [setArg]
    rw [h2, h3]
    simp [pyMinInt, min_assoc]

/-- C4 witness: the clamp equivalences applied at concrete over-cap inputs. -/
theorem C4_witness :
    call_tool cfgDefault echoEngine "table_sample" c4SampleArgs =
      call_tool cfgDefault echoEngine "table_sample"
        (setArg c4SampleArgs "num_rows" (.vInt (min 500 100))) ∧
    call_tool cfgDefault echoEngine "distinct_values" c4DistinctArgs =
      call_tool cfgDefault echoEngine "distinct_values"
        (setArg c4DistinctArgs "limit" (.vInt (min 10000 500))) ∧
    call_tool cfgDefault bigEngine "execute_query" c4ExecArgs =
      call_tool cfgDefault bigEngine "execute_query"
        (setArg c4ExecArgs "max_rows" (.vInt (min 99999 10000))) :=
  ⟨C4_thm.1 cfgDefault echoEngine c4SampleArgs 500 rfl,
   C4_thm.2.1 cfgDefault echoEngine c4DistinctArgs 10000 rfl,
   C4_thm.2.2.1 cfgDefault bigEngine c4ExecArgs 99999 rfl⟩

/-- C6: for every tool-invocation request — any name, any arguments, any
engine behaviour — the dispatcher produces exactly one text block and never
propagates an exception; when the body raises a `QError`, the response is
the engine's own message under the `KDB+ Error:` prefix, and any other
exception is reported under the generic `Error:` prefix. -/
theorem C6_thm (cfg : Config) (eng : Engine) (name : String) (a : Args) :
    (∃ s, call_tool cfg eng name a = [s]) ∧
    (∀ m, call_tool_body cfg eng name a = .error (.qerror m) →
      call_tool cfg eng name a = ["KDB+ Error: " ++ m]) ∧
    (∀ m, (call_tool_body cfg eng name a = .error (.typeError m) ∨
           call_tool_body cfg eng name a = .error (.attrError m) ∨
           call_tool_body cfg eng name a = .error (.other m)) →
      call_tool cfg eng name a = ["Error: " ++ m]) := by
  refine ⟨?_, ?_, ?_⟩
  · cases hb : call_tool_body cfg eng name a with
    | ok r =>
      obtain ⟨s, hs⟩ := call_tool_body_singleton cfg eng name a r hb
      refine ⟨s, ?_⟩
      unfold call_tool
      rw [hb, hs]
    | error e =>
      refine ⟨exnText e, ?_⟩
      unfold call_tool
      rw [hb]
  · intro m hm
    unfold call_tool
    rw [hm]
    rfl
  · intro m hm
    unfold call_tool
    rcases hm with hm | hm | hm <;> rw [hm] <;> rfl

/-- C6 witness: an engine raising `QError "type"` on a well-formed
`table_schema` request yields the engine-message response, and a request
with the required argument missing (a `TypeError` inside the validator)
yields the generic error response. -/
theorem C6_witness :
    call_tool cfgDefault qerrEngine "table_schema" stocksArgs = ["KDB+ Error: type"] ∧
    call_tool cfgDefault echoEngine "table_schema" noArgs =
      ["Error: " ++ reMatchTypeErrorMsg] :=
  ⟨(C6_thm cfgDefault qerrEngine "table_schema" stocksArgs).2.1 "type" rfl,
   (C6_thm cfgDefault echoEngine "table_schema" noArgs).2.2 reMatchTypeErrorMsg
     (Or.inl rfl)⟩

/-- C7 counterexample: the claim says that when the first result exceeds
`max_rows` the tool re-executes the full query text prefixed with a take
limit.  Against an engine that marks a re-run of query text `RERUN` and the
application of a function to an already-fetched result `TAKE`, the second
engine call is the `TAKE` form `kx.q(f"{max_rows}#", result)` — the
already-fetched result is sliced, the query text is not re-executed. -/
theorem C7_counterexample :
    call_tool cfgDefault c7Engine "execute_query" c7Args =
      ["Query result (limited to 2 rows):\nTAKE(2#)(FULL)"] ∧
    c7Engine.run "2#select from t" =
      .ok { text := "RERUN:2#select from t", len? := some 1 } ∧
    ¬ (call_tool cfgDefault c7Engine "execute_query" c7Args =
        ["Query result (limited to 2 rows):\n" ++ format_result "RERUN:2#select from t"]) :=
  ⟨by decide, rfl, by decide⟩

/-- C7 (amended): when the first result of `execute_query` reports a length
exceeding the (clamped) row cap, the tool issues a second engine call that
applies the take-function `"{max_rows}#"` to the already-fetched result
object, and renders that sliced result — it does not re-execute the query
text. -/
theorem C7_thm (cfg : Config) (eng : Engine) (a : Args) (q : String) (mr : Int)
    (r r2 : EngineResult) (n : Nat)
    (hq : a "query" = some (.vStr q)) (hmr : a "max_rows" = some (.vInt mr))
    (hstrip : pyStrip q = q) (hne : ¬ (q = "")) (hsafe : (is_dangerous_query q).1 = false)
    (hcap : mr ≤ 10000)
    (hrun : eng.run q = .ok r) (hlen : r.len? = some n) (hgt : mr < (n : Int))
    (happly : eng.apply (toString mr ++ "#") r = .ok r2) :
    call_tool cfg eng "execute_query" a =
      ["Query result (limited to " ++ toString mr ++ " rows):\n" ++ format_result r2.text] := by
  have e1 : call_tool_body cfg eng "execute_query" a = tool_execute_query eng a := rfl
  unfold call_tool
  rw [e1]
  unfold tool_execute_query
  rw [hq, hmr]
  simp only [pyStripOf, pyMinInt, bindE, hstrip]
  rw [min_eq_left hcap]
  have hqe : (q == "") = false := by simp [hne]
  rw [hqe]
  simp only [Bool.false_eq_true, if_false, hsafe, hrun, bindE, hlen]
  rw [if_pos hgt, happly]

/-- C7 witness: the amended behaviour at the concrete fixture — the second
call is `apply "2#"` on the fetched result. -/
theorem C7_witness :
    call_tool cfgDefault c7Engine "execute_query" c7Args =
      ["Query result (limited to 2 rows):\n" ++ format_result "TAKE(2#)(FULL)"] :=
  C7_thm cfgDefault c7Engine c7Args "select from t" 2
    { text := "FULL", len? := some 5 } { text := "TAKE(2#)(FULL)" } 5
    rfl rfl (by decide) (by decide) (by decide) (by decide) rfl rfl (by decide) rfl

/-- C8 counterexample: the claim says `format_result` never raises for any
input value; but when `str(result)` itself raises, the `except` handler
re-evaluates `str(result)` and the same exception escapes — the function
does not return a string. -/
theorem C8_counterexample :
    format_result_obj (.error (.typeError "str raised")) 120 =
      .error (.typeError "str raised") ∧
    ¬ ∃ s, format_result_obj (.error (.typeError "str raised")) 120 = .ok s :=
  ⟨rfl, fun ⟨_, hs⟩ => by simp [format_result_obj] at hs⟩

/-- C8 (amended): `format_result` returns a string exactly when
`str(result)` does — on every value whose textual conversion succeeds the
formatter succeeds (no other operation in the body can raise), and when
`str(result)` raises, the fallback re-raises the same exception. -/
theorem C8_thm :
    (∀ (s : String) (mw : Nat), format_result_obj (.ok s) mw = .ok (format_result s mw)) ∧
    (∀ (e : Exn) (mw : Nat), format_result_obj (.error e) mw = .error e) ∧
    (∀ (strFn : Except Exn String) (mw : Nat),
      (∃ s, format_result_obj strFn mw = .ok s) ↔ ∃ s, strFn = .ok s) := by
  refine ⟨fun s mw => rfl, fun e mw => rfl, fun strFn mw => ?_⟩
  cases strFn with
  | ok s => exact ⟨fun _ => ⟨s, rfl⟩, fun _ => ⟨format_result s mw, rfl⟩⟩
  | error e =>
    constructor
    · rintro ⟨s, hs⟩
      simp [format_result_obj] at hs
    · rintro ⟨s, hs⟩
      cases hs

/-- C9 counterexample: the claim says a missing required identifier argument
is reported as a ValidationError; but `table_schema` with no `table_name`
reaches `re.match(pattern, None)`, whose `TypeError` is caught by the
generic handler — the response is the generic `Error:` text, not the
dispatcher's validation message `Error: Invalid table name format`. -/
theorem C9_counterexample :
    call_tool cfgDefault echoEngine "table_schema" noArgs =
      ["Error: " ++ reMatchTypeErrorMsg] ∧
    ¬ (["Error: " ++ reMatchTypeErrorMsg] = ["Error: Invalid table name format"]) := by
  decide

/-- C9 (amended): when `table_schema` is invoked with no `table_name`, the
validator call raises `TypeError`, the dispatcher reports it immediately
through its generic exception handler, and no engine call is made — the
response is one fixed error text for every engine and configuration. -/
theorem C9_thm (cfg : Config) (eng : Engine) :
    call_tool cfg eng "table_schema" noArgs = ["Error: " ++ reMatchTypeErrorMsg] := rfl

/-- C10: for `filter_by_symbol`, `symbol_summary` and `daily_ohlc` the
symbol is uppercased before interpolation, so two requests to the same tool
that agree on every other argument and whose symbols differ only in letter
case (equal images under character-wise lowercasing) produce identical
responses against every engine — hence identical composed queries and
identical response text. -/
theorem C10_thm (cfg : Config) (eng : Engine) (name : String) (a1 a2 : Args) (s1 s2 : String)
    (hname : name = "filter_by_symbol" ∨ name = "symbol_summary" ∨ name = "daily_ohlc")
    (hs1 : a1 "symbol" = some (.vStr s1)) (hs2 : a2 "symbol" = some (.vStr s2))
    (hk : ∀ k, ¬ (k = "symbol") → a1 k = a2 k)
    (hcase : s1.data.map asciiLower = s2.data.map asciiLower) :
    call_tool cfg eng name a1 = call_tool cfg eng name a2 := by
  have hu : pyUpper s1 = pyUpper s2 := pyUpper_eq_of_lower s1 s2 hcase
  have ht : a1 "table_name" = a2 "table_name" := hk _ (by decide)
  have hl : a1 "limit" = a2 "limit" := hk _ (by decide)
  rcases hname with h | h | h <;> subst h <;> unfold call_tool
  · have e1 : call_tool_body cfg eng "filter_by_symbol" a1 = tool_filter_by_symbol eng a1 := rfl
    have e2 : call_tool_body cfg eng "filter_by_symbol" a2 = tool_filter_by_symbol eng a2 := rfl
    rw [e1, e2]
    unfold tool_filter_by_symbol
    rw [ht, hl, hs1, hs2]
    simp only [pyUpperOf]
    rw [hu]
  · have e1 : call_tool_body cfg eng "symbol_summary" a1 = tool_symbol_summary eng a1 := rfl
    have e2 : call_tool_body cfg eng "symbol_summary" a2 = tool_symbol_summary eng a2 := rfl
    rw [e1, e2]
    unfold tool_symbol_summary
    rw [ht, hs1, hs2]
    simp only [pyUpperOf]
    rw [hu]
  · have e1 : call_tool_body cfg eng "daily_ohlc" a1 = tool_daily_ohlc eng a1 := rfl
    have e2 : call_tool_body cfg eng "daily_ohlc" a2 = tool_daily_ohlc eng a2 := rfl
    rw [e1, e2]
    unfold tool_daily_ohlc
    rw [ht, hl, hs1, hs2]
    simp only [pyUpperOf]
    rw [hu]

/-- C10 witness: `nvda` and `NvDa` give the same response. -/
theorem C10_witness :
    call_tool cfgDefault echoEngine "filter_by_symbol" c10Args1 =
      call_tool cfgDefault echoEngine "filter_by_symbol" c10Args2 :=
  C10_thm cfgDefault echoEngine "filter_by_symbol" c10Args1 c10Args2 "nvda" "NvDa"
    (Or.inl rfl) rfl rfl
    (fun k hk => by simp [c10Args1, c10Args2, hk]) (by decide)
